import Mathlib

/-!
# A shallow embedding of the riskv RV32I emulator core

This file embeds the decode / encode / execute pipeline of the riskv
repository (an RV32I emulator written in Rust) and settles the claims of its
specification against that embedding.

Conventions of the embedding:
* Rust `i32` values are represented as `Int`; two's-complement wrap-around is
  made explicit with `wrap32` (`(x + 2^31) % 2^32 - 2^31`, where `%` is
  Lean's Euclidean `Int.emod`).  `Int./` is floor division for positive
  divisors, which is exactly the arithmetic right shift `>>` of `i32`.
* Rust `u32` reinterpretation (`as_unsigned`) is `toU32`, the Euclidean
  remainder modulo `2^32` read back as a `Nat`.
* Rust shifts (`<<`, `>>`) take their shift amount modulo the bit width
  (the language's defined, non-panicking behaviour), hence the `% 32`
  inside `i32_shl` / `i32_lshr` / `i32_ashr`.
* Rust `%` on `i32` truncates towards zero, hence `Int.tmod` in the
  alignment checks of `execute` (`jump % 4 != 0`).
* Contiguous-mask bit extractions `(w & MASK) >> S` are written as the
  equivalent `w / 2^S % 2^k`; the source's mask and shift constants are
  quoted in the doc comment of every codec.
* Fallible Rust functions returning `Result` become `Except` /
  `Processor × Option Exception`; `execute` takes `&mut Processor`, so its
  embedding returns the final processor state next to the optional
  exception, which preserves the observable state even on the error path.
-/

namespace Riskv

/-- Interpret the low 8 bits of an integer as a signed `i8` value
(two's complement). -/
def sext8 (x : Int) : Int := (x + 128) % 256 - 128

/-- Interpret the low 12 bits of an integer as a signed 12-bit value
(two's complement); the specification's `sign_extend_12`. -/
def sext12 (x : Int) : Int := (x + 2048) % 4096 - 2048

/-- Interpret the low 16 bits of an integer as a signed `i16` value
(two's complement). -/
def sext16 (x : Int) : Int := (x + 32768) % 65536 - 32768

/-- Interpret the low 32 bits of an integer as a signed `i32` value
(two's complement).  This is both the `u32 → i32` reinterpretation
(`as_signed`) and the wrap-around normalisation of `i32` arithmetic. -/
def sext32 (x : Int) : Int := (x + 2147483648) % 4294967296 - 2147483648

/-- Wrapping normalisation of `i32` arithmetic (`wrapping_add`,
`wrapping_sub`, plain overflowing `+` in release mode). -/
def wrap32 (x : Int) : Int := sext32 x

/-- Reinterpret an `i32` value as the `u32` with the same bit pattern
(`integer.rs`, `AsUnsigned::as_unsigned`). -/
def toU32 (x : Int) : Nat := (x % 4294967296).toNat

/-- Rust `i32` left shift: the shift amount is taken mod 32 (the defined
non-panicking semantics of `<<`), shifted-out bits are discarded. -/
def i32_shl (v : Int) (s : Nat) : Int := wrap32 (v * 2 ^ (s % 32))

/-- Rust `u32` logical right shift followed by `as_signed`
(`SRLI` / `SRL`: `(rs1.as_unsigned() >> s).as_signed()`). -/
def i32_lshr (v : Int) (s : Nat) : Int := wrap32 ((toU32 v / 2 ^ (s % 32) : Nat) : Int)

/-- Rust `i32` arithmetic right shift (`>>` on a signed value): floor
division by a power of two; shift amount mod 32. -/
def i32_ashr (v : Int) (s : Nat) : Int := v / 2 ^ (s % 32)

/-- Bitwise XOR on `i32` values: reinterpret both operands as `u32` bit
patterns, `Nat.xor` them, reinterpret back. -/
def i32_xor (a b : Int) : Int := sext32 ((Nat.xor (toU32 a) (toU32 b) : Nat) : Int)

/-- Bitwise OR on `i32` values. -/
def i32_or (a b : Int) : Int := sext32 ((Nat.lor (toU32 a) (toU32 b) : Nat) : Int)

/-- Bitwise AND on `i32` values. -/
def i32_and (a b : Int) : Int := sext32 ((Nat.land (toU32 a) (toU32 b) : Nat) : Int)

/-- Bitwise NOT on `i32` values (`!v` in Rust): two's complement
`-v - 1`. -/
def i32_not (v : Int) : Int := wrap32 (-v - 1)

/-- The 32 general-purpose registers of RV32I (`registers.rs`,
`enum Register`), with their discriminants 0–31. -/
inductive Register
  | ZERO | RA | SP | GP | TP | T0 | T1 | T2
  | S0 | S1 | A0 | A1 | A2 | A3 | A4 | A5
  | A6 | A7 | S2 | S3 | S4 | S5 | S6 | S7
  | S8 | S9 | S10 | S11 | T3 | T4 | T5 | T6
deriving DecidableEq

/-- The numeric discriminant of a register (`Register as u8`). -/
def Register.toNat : Register → Nat
  | .ZERO => 0 | .RA => 1 | .SP => 2 | .GP => 3 | .TP => 4
  | .T0 => 5 | .T1 => 6 | .T2 => 7 | .S0 => 8 | .S1 => 9
  | .A0 => 10 | .A1 => 11 | .A2 => 12 | .A3 => 13 | .A4 => 14
  | .A5 => 15 | .A6 => 16 | .A7 => 17 | .S2 => 18 | .S3 => 19
  | .S4 => 20 | .S5 => 21 | .S6 => 22 | .S7 => 23 | .S8 => 24
  | .S9 => 25 | .S10 => 26 | .S11 => 27 | .T3 => 28 | .T4 => 29
  | .T5 => 30 | .T6 => 31

/-- `Register::const_from` (`registers.rs`): mask the byte with
`0b0001_1111` and map the 32 possible values to their register; the final
match arm is unreachable after the mask (the Rust code panics there). -/
def Register.ofNat5 (k : Nat) : Register :=
  match k % 32 with
  | 0 => .ZERO | 1 => .RA | 2 => .SP | 3 => .GP | 4 => .TP
  | 5 => .T0 | 6 => .T1 | 7 => .T2 | 8 => .S0 | 9 => .S1
  | 10 => .A0 | 11 => .A1 | 12 => .A2 | 13 => .A3 | 14 => .A4
  | 15 => .A5 | 16 => .A6 | 17 => .A7 | 18 => .S2 | 19 => .S3
  | 20 => .S4 | 21 => .S5 | 22 => .S6 | 23 => .S7 | 24 => .S8
  | 25 => .S9 | 26 => .S10 | 27 => .S11 | 28 => .T3 | 29 => .T4
  | 30 => .T5 | 31 => .T6
  | _ => .ZERO

/-- The register file (`registers.rs`, `struct Registers` together with its
`ZeroRegister` zero slot).  `zero` is the readable cell of the zero
register (`ZeroRegister::zero`): shared references always point at it and
nothing ever assigns to it, so on every Rust-constructible state it holds
the default 0.  `scratch` is the write-absorbing cell
(`ZeroRegister::_zero`): `DerefMut` resets it and hands out a mutable
reference to it, so a write to register 0 lands here and is never read
back.  `cells` holds the 31 real registers keyed by name; the `ZERO` key
is unused. -/
structure Registers where
  zero : Int
  scratch : Int
  cells : Register → Int

/-- Read a register (`Index<Register> for Registers` followed by the
`Deref` of `ZeroRegister` for register 0). -/
def Registers.read (r : Registers) (i : Register) : Int :=
  if i = Register.ZERO then r.zero else r.cells i

/-- Write a register (`IndexMut<Register> for Registers`; for register 0
the `DerefMut` of `ZeroRegister` resets `_zero` and the assignment then
stores the value there, leaving the readable `zero` cell untouched). -/
def Registers.write (r : Registers) (i : Register) (v : Int) : Registers :=
  if i = Register.ZERO then { r with scratch := v }
  else { r with cells := fun j => if j = i then v else r.cells j }

/-- Read a register by raw index (`Index<u8> for Registers`): indices 0–31
map to the same cells as the named registers (index 0 to the zero
register's readable cell); larger indices panic in Rust, here `none`. -/
def Registers.readIdx (r : Registers) (i : Nat) : Option Int :=
  if i < 32 then some (r.read (Register.ofNat5 i)) else none

/-- The control and status register bank (`csr.rs`, `CSR32`): 4096 cells of
`i32`.  The bank is total here; the instruction encoding keeps every index
used by `execute` below 4096 (out-of-range indices panic in Rust). -/
structure CSR32 where
  registers : Nat → Int

/-- `CSR32::read`: load the cell. -/
def CSR32.read (c : CSR32) (i : Nat) : Int := c.registers i

/-- Store a cell (the underlying atomic store). -/
def CSR32.write (c : CSR32) (i : Nat) (v : Int) : CSR32 :=
  ⟨fun j => if j = i then v else c.registers j⟩

/-- `CSR32::read_write`: atomic swap, returns the old value next to the
updated bank. -/
def CSR32.read_write (c : CSR32) (i : Nat) (v : Int) : Int × CSR32 :=
  (c.read i, c.write i v)

/-- `CSR32::set_bits`: atomic `fetch_or`, returns the old value. -/
def CSR32.set_bits (c : CSR32) (i : Nat) (v : Int) : Int × CSR32 :=
  (c.read i, c.write i (i32_or (c.read i) v))

/-- `CSR32::clear_bits`: atomic `fetch_and` with the complement
(`!value`), returns the old value. -/
def CSR32.clear_bits (c : CSR32) (i : Nat) (v : Int) : Int × CSR32 :=
  (c.read i, c.write i (i32_and (c.read i) (i32_not v)))

/-- The byte-addressable memory (`memory.rs`, `struct Memory`): a
`Vec<u8>` of little-endian bytes, lazily grown and zero-filled. -/
structure Memory where
  data : List Nat
deriving DecidableEq

/-- A byte of memory (out-of-range reads only happen after `resize`; the
`% 256` records that the cells have type `u8`). -/
def Memory.byte (m : Memory) (i : Nat) : Nat := m.data.getD i 0 % 256

/-- `Memory::resize::<N>(location)`: grow the backing store to at least
`location + N` bytes, zero-filled; do nothing when it is already large
enough. -/
def Memory.resize (m : Memory) (width loc : Nat) : Memory :=
  if m.data.length < loc + width then
    ⟨m.data ++ List.replicate (loc + width - m.data.length) 0⟩
  else m

/-- `Memory::load_byte`: grow, then read one byte as an `i8`. -/
def Memory.load_byte (m : Memory) (loc : Nat) : Int × Memory :=
  let m1 := m.resize 1 loc
  (sext8 ((m1.byte loc : Nat) : Int), m1)

/-- `Memory::load_half`: grow, then read two little-endian bytes as an
`i16`. -/
def Memory.load_half (m : Memory) (loc : Nat) : Int × Memory :=
  let m1 := m.resize 2 loc
  (sext16 (((m1.byte loc + 256 * m1.byte (loc + 1) : Nat) : Int)), m1)

/-- `Memory::load_word`: grow, then read four little-endian bytes as an
`i32`. -/
def Memory.load_word (m : Memory) (loc : Nat) : Int × Memory :=
  let m1 := m.resize 4 loc
  (sext32 (((m1.byte loc + 256 * m1.byte (loc + 1) + 65536 * m1.byte (loc + 2)
      + 16777216 * m1.byte (loc + 3) : Nat) : Int)), m1)

/-- `Memory::store_byte`: grow, then store the low byte of the value
(the `as i8` truncation composed with `to_le_bytes`). -/
def Memory.store_byte (m : Memory) (loc : Nat) (v : Int) : Memory :=
  let m1 := m.resize 1 loc
  ⟨m1.data.set loc ((v % 256).toNat)⟩

/-- `Memory::store_half`: grow, then store the two little-endian bytes of
the value truncated to `i16`. -/
def Memory.store_half (m : Memory) (loc : Nat) (v : Int) : Memory :=
  let m1 := m.resize 2 loc
  let u := (v % 65536).toNat
  ⟨(m1.data.set loc (u % 256)).set (loc + 1) (u / 256)⟩

/-- `Memory::store_word`: grow, then store the four little-endian bytes of
the value. -/
def Memory.store_word (m : Memory) (loc : Nat) (v : Int) : Memory :=
  let m1 := m.resize 4 loc
  let u := toU32 v
  ⟨(((m1.data.set loc (u % 256)).set (loc + 1) (u / 256 % 256)).set
      (loc + 2) (u / 65536 % 256)).set (loc + 3) (u / 16777216)⟩

/-- The processor (`Processor<i32, CSR32>` as used by
`impl_instruction_set.rs` and constructed by the repository's
`processor_state!` test macro): the register file, the program counter,
the CSR bank and the memory.  The struct itself lives outside `src/`
(only its callers are present), but its fields are fixed by those
callers. -/
structure Processor where
  registers : Registers
  pc : Int
  csrs : CSR32
  memory : Memory

/-- A processor exception (`instruction_set.rs`, `enum Exception`). -/
inductive Exception
  | UnimplementedInstruction (word : Nat)
  | MisalignedInstructionFetch
deriving DecidableEq

/-- The RV32I instruction set (`instructions/mod.rs`, `enum Instruction`).
Field conventions: 12-bit immediates / offsets are stored sign-extended
(Rust `i16`, here `Int`); the U-immediate is the raw 20-bit value (Rust
`i32`); the J-offset is the sign-extended 21-bit value and the B-offset
the sign-extended 13-bit value, both with bit 0 clear when produced by
`decode`; `shamt` and the CSR immediate are unsigned bytes (Rust `u8`,
here `Nat`); the CSR address is an unsigned 12-bit value (Rust `u16`,
here `Nat`). -/
inductive Instruction
  | LUI (rd : Register) (imm : Int)
  | AUIPC (rd : Register) (imm : Int)
  | ADDI (rd rs1 : Register) (imm : Int)
  | SLTI (rd rs1 : Register) (imm : Int)
  | SLTIU (rd rs1 : Register) (imm : Int)
  | XORI (rd rs1 : Register) (imm : Int)
  | ORI (rd rs1 : Register) (imm : Int)
  | ANDI (rd rs1 : Register) (imm : Int)
  | SLLI (rd rs1 : Register) (shamt : Nat)
  | SRLI (rd rs1 : Register) (shamt : Nat)
  | SRAI (rd rs1 : Register) (shamt : Nat)
  | ADD (rd rs1 rs2 : Register)
  | SUB (rd rs1 rs2 : Register)
  | SLL (rd rs1 rs2 : Register)
  | SLT (rd rs1 rs2 : Register)
  | SLTU (rd rs1 rs2 : Register)
  | XOR (rd rs1 rs2 : Register)
  | SRL (rd rs1 rs2 : Register)
  | SRA (rd rs1 rs2 : Register)
  | OR (rd rs1 rs2 : Register)
  | AND (rd rs1 rs2 : Register)
  | LB (rd rs1 : Register) (offset : Int)
  | LH (rd rs1 : Register) (offset : Int)
  | LW (rd rs1 : Register) (offset : Int)
  | LBU (rd rs1 : Register) (offset : Int)
  | LHU (rd rs1 : Register) (offset : Int)
  | SB (rs1 rs2 : Register) (offset : Int)
  | SH (rs1 rs2 : Register) (offset : Int)
  | SW (rs1 rs2 : Register) (offset : Int)
  | CSRRW (rd rs1 : Register) (csr : Nat)
  | CSRRS (rd rs1 : Register) (csr : Nat)
  | CSRRC (rd rs1 : Register) (csr : Nat)
  | CSRRWI (rd : Register) (csr : Nat) (imm : Nat)
  | CSRRSI (rd : Register) (csr : Nat) (imm : Nat)
  | CSRRCI (rd : Register) (csr : Nat) (imm : Nat)
  | JAL (rd : Register) (offset : Int)
  | JALR (rd rs1 : Register) (offset : Int)
  | BEQ (rs1 rs2 : Register) (offset : Int)
  | BNE (rs1 rs2 : Register) (offset : Int)
  | BLT (rs1 rs2 : Register) (offset : Int)
  | BGE (rs1 rs2 : Register) (offset : Int)
  | BLTU (rs1 rs2 : Register) (offset : Int)
  | BGEU (rs1 rs2 : Register) (offset : Int)
deriving DecidableEq

/-- `rd.rs`: bits 7–11 (`(value & 0b…11111_0000000) >> 7`, then
`Register::const_from`). -/
def Rd.decode (w : Nat) : Register := Register.ofNat5 (w / 128 % 32)

/-- `rd.rs`: `((value as u8) as u32) << 7`. -/
def Rd.encode (r : Register) : Nat := r.toNat * 128

/-- `rs1.rs`: bits 15–19. -/
def Rs1.decode (w : Nat) : Register := Register.ofNat5 (w / 32768 % 32)

/-- `rs1.rs`: `((value as u8) as u32) << 15`. -/
def Rs1.encode (r : Register) : Nat := r.toNat * 32768

/-- `rs2.rs`: bits 20–24. -/
def Rs2.decode (w : Nat) : Register := Register.ofNat5 (w / 1048576 % 32)

/-- `rs2.rs`: `((value as u8) as u32) << 20`. -/
def Rs2.encode (r : Register) : Nat := r.toNat * 1048576

/-- `funct3.rs`: bits 12–14. -/
def Funct3.decode (w : Nat) : Nat := w / 4096 % 8

/-- `funct6.rs`: `(value >> 26) as u8` (bits 26–31). -/
def Funct6.decode (w : Nat) : Nat := w / 67108864 % 256

/-- `funct7.rs`: `(value >> 25) as u8` (bits 25–31). -/
def Funct7.decode (w : Nat) : Nat := w / 33554432 % 256

/-- `shamt.rs`: bits 20–25 — six bits, since bit 25 is part of the shift
amount on RV64 (`(value & 0b…1_11111·2^20) >> 20`). -/
def Shamt.decode (w : Nat) : Nat := w / 1048576 % 64

/-- `shamt.rs`: `(value as u32) << 20 & MASK` with the same six-bit mask:
only bits 20–25 of the word receive the shift amount. -/
def Shamt.encode (s : Nat) : Nat := s % 64 * 1048576

/-- `instructions/csr.rs`: `(value >> 20) as u16` (bits 20–31). -/
def Csr.decode (w : Nat) : Nat := w / 1048576 % 65536

/-- `instructions/csr.rs`: `(value as u32) << 20` (bits above 31 are
shifted out). -/
def Csr.encode (c : Nat) : Nat := c % 65536 * 1048576 % 4294967296

/-- `csr_imm.rs`: bits 15–19. -/
def CsrImm.decode (w : Nat) : Nat := w / 32768 % 32

/-- `csr_imm.rs`: `(value as u32) << 15 & MASK` (bits 15–19). -/
def CsrImm.encode (v : Nat) : Nat := v % 32 * 32768

/-- `immi.rs`: `((value as i32) >> 20) as i16` — reinterpret the word as
`i32`, arithmetic-shift the sign-extended top 12 bits down, truncate to
`i16`. -/
def ImmI.decode (w : Nat) : Int := sext16 (sext32 (w : Int) / 1048576)

/-- `immi.rs`: `(value as u32) << 20` (the `i16` is sign-extended to 32
bits first, the shift discards the high bits). -/
def ImmI.encode (v : Int) : Nat := toU32 v * 1048576 % 4294967296

/-- `immu.rs`: `(value >> 12) as i32` (bits 12–31, always non-negative). -/
def ImmU.decode (w : Nat) : Int := ((w / 4096 : Nat) : Int)

/-- `immu.rs`: `(value as u32) << 12`. -/
def ImmU.encode (v : Int) : Nat := toU32 v * 4096 % 4294967296

/-- `simmi.rs`: `(((value & U_MASK) as i32) >> 20) + (((value & L_MASK) as
i32) >> 7)` truncated to `i16`; `U_MASK` is bits 25–31 (sign-carrying),
`L_MASK` is bits 7–11. -/
def SImmI.decode (w : Nat) : Int :=
  sext16 (sext32 ((w / 33554432 % 128 * 33554432 : Nat) : Int) / 1048576
    + ((w / 128 % 32 : Nat) : Int))

/-- `simmi.rs`: truncate to 12 bits (`value & i12::MASK`), scatter into
bits 25–31 and 7–11 (`((trunk << 20) + (trunk << 7)) & FULL_MASK`). -/
def SImmI.encode (v : Int) : Nat :=
  (v % 4096).toNat / 32 * 33554432 + (v % 4096).toNat % 32 * 128

/-- `bimm.rs` decode: reassemble the scrambled 13-bit branch offset —
bit 31 is `imm[12]` (sign-carrying, `(value & SIGN_MASK) as i32 >> 19`),
bit 7 is `imm[11]` (`<< 4`), bits 25–30 are `imm[10:5]` (`>> 20`), bits
8–11 are `imm[4:1]` (`>> 7`) — truncate to `i16` and clear bit 0
(`& FINAL_MASK`, i.e. `& -2`). -/
def BImm.decode (w : Nat) : Int :=
  let s := sext16 (sext32 ((w / 2147483648 % 2 * 2147483648 : Nat) : Int) / 524288
    + ((w / 128 % 2 * 2048 : Nat) : Int)
    + ((w / 33554432 % 64 * 32 : Nat) : Int)
    + ((w / 256 % 16 * 2 : Nat) : Int))
  s - s % 2

/-- `bimm.rs` encode: scatter `imm[12]` to bit 31 (`(v << 19) & SIGN_MASK`),
`imm[11]` to bit 7, `imm[10:5]` to bits 25–30, `imm[4:1]` to bits 8–11
(the `i16` is sign-extended to `u32` first). -/
def BImm.encode (v : Int) : Nat :=
  toU32 v / 4096 % 2 * 2147483648 + toU32 v / 2048 % 2 * 128
    + toU32 v / 32 % 64 * 33554432 + toU32 v / 2 % 16 * 256

/-- `jimm.rs` decode: bits 12–19 are `imm[19:12]` and stay in place
(`value & FIX_POSITION_MASK`), bit 31 is `imm[20]` (sign-carrying,
`>> 11`), bits 21–30 are `imm[10:1]` (`>> 20`), bit 20 is `imm[11]`
(`>> 9`); clear bit 0 (`& FINAL_MASK`). -/
def JImm.decode (w : Nat) : Int :=
  let s := ((w / 4096 % 256 * 4096 : Nat) : Int)
    + sext32 ((w / 2147483648 % 2 * 2147483648 : Nat) : Int) / 2048
    + ((w / 2097152 % 1024 * 2 : Nat) : Int)
    + ((w / 1048576 % 2 * 2048 : Nat) : Int)
  s - s % 2

/-- `jimm.rs` encode: scatter `imm[20]` to bit 31 (`(v << 11) & SIGN_MASK`),
`imm[10:1]` to bits 21–30 (`<< 20`), `imm[11]` to bit 20 (`<< 9`), and
keep `imm[19:12]` in place (`v & FIX_POSITION_MASK`). -/
def JImm.encode (v : Int) : Nat :=
  toU32 v / 1048576 % 2 * 2147483648 + toU32 v / 2 % 1024 * 2097152
    + toU32 v / 2048 % 2 * 1048576 + toU32 v / 4096 % 256 * 4096

/-- `types.rs`, `R::encode`. -/
def R.encode (rd rs1 rs2 : Register) : Nat :=
  Rd.encode rd + Rs1.encode rs1 + Rs2.encode rs2

/-- `types.rs`, `I::encode`. -/
def I.encode (rd rs1 : Register) (imm : Int) : Nat :=
  Rd.encode rd + Rs1.encode rs1 + ImmI.encode imm

/-- `types.rs`, `I::encode_csr`. -/
def I.encode_csr (rd rs1 : Register) (csr : Nat) : Nat :=
  Rd.encode rd + Rs1.encode rs1 + Csr.encode csr

/-- `types.rs`, `I::encode_csri`. -/
def I.encode_csri (rd : Register) (imm : Nat) (csr : Nat) : Nat :=
  Rd.encode rd + CsrImm.encode imm + Csr.encode csr

/-- `types.rs`, `I::encode_shamt`. -/
def I.encode_shamt (rd rs1 : Register) (shamt : Nat) : Nat :=
  Rd.encode rd + Rs1.encode rs1 + Shamt.encode shamt

/-- `types.rs`, `U::encode`. -/
def U.encode (rd : Register) (imm : Int) : Nat :=
  Rd.encode rd + ImmU.encode imm

/-- `types.rs`, `S::encode`. -/
def S.encode (rs1 rs2 : Register) (simmi : Int) : Nat :=
  Rs1.encode rs1 + Rs2.encode rs2 + SImmI.encode simmi

/-- Modelled from the spec: `types::J::encode` is called by
`Instruction::encode` for the JAL arm but is missing from the source
snapshot (`types.rs` stops at the S type).  Per spec §4.1 the encoder
scatters each field into its architected position, exactly as the sibling
encoders do: the destination register plus the J immediate. -/
def J.encode (rd : Register) (offset : Int) : Nat :=
  Rd.encode rd + JImm.encode offset

/-- Modelled from the spec: `types::B::encode` is called by
`Instruction::encode` for the branch arms but is missing from the source
snapshot.  Per spec §4.1, the two source registers plus the B
immediate. -/
def B.encode (rs1 rs2 : Register) (offset : Int) : Nat :=
  Rs1.encode rs1 + Rs2.encode rs2 + BImm.encode offset

/-- `Instruction::op_code`: `(value & 0b1111111) as u8`. -/
def Instruction.op_code (w : Nat) : Nat := w % 128

/-- `Instruction::decode` (`instructions/mod.rs`): dispatch on the 7-bit
opcode, then on funct3, then (for the shift-right / arithmetic families)
on funct6 / funct7; anything outside the table is
`Exception::UnimplementedInstruction(word)`. -/
def Instruction.decode (w : Nat) : Except Exception Instruction :=
  match Instruction.op_code w with
  | 0x37 => .ok (.LUI (Rd.decode w) (ImmU.decode w))
  | 0x17 => .ok (.AUIPC (Rd.decode w) (ImmU.decode w))
  | 0x13 =>
    match Funct3.decode w with
    | 0 => .ok (.ADDI (Rd.decode w) (Rs1.decode w) (ImmI.decode w))
    | 1 => .ok (.SLLI (Rd.decode w) (Rs1.decode w) (Shamt.decode w))
    | 2 => .ok (.SLTI (Rd.decode w) (Rs1.decode w) (ImmI.decode w))
    | 3 => .ok (.SLTIU (Rd.decode w) (Rs1.decode w) (ImmI.decode w))
    | 4 => .ok (.XORI (Rd.decode w) (Rs1.decode w) (ImmI.decode w))
    | 5 =>
      match Funct6.decode w with
      | 0 => .ok (.SRLI (Rd.decode w) (Rs1.decode w) (Shamt.decode w))
      | 16 => .ok (.SRAI (Rd.decode w) (Rs1.decode w) (Shamt.decode w))
      | _ => .error (.UnimplementedInstruction w)
    | 6 => .ok (.ORI (Rd.decode w) (Rs1.decode w) (ImmI.decode w))
    | 7 => .ok (.ANDI (Rd.decode w) (Rs1.decode w) (ImmI.decode w))
    | _ => .error (.UnimplementedInstruction w)
  | 0x33 =>
    match Funct3.decode w, Funct7.decode w with
    | 0, 0 => .ok (.ADD (Rd.decode w) (Rs1.decode w) (Rs2.decode w))
    | 0, 32 => .ok (.SUB (Rd.decode w) (Rs1.decode w) (Rs2.decode w))
    | 1, 0 => .ok (.SLL (Rd.decode w) (Rs1.decode w) (Rs2.decode w))
    | 2, 0 => .ok (.SLT (Rd.decode w) (Rs1.decode w) (Rs2.decode w))
    | 3, 0 => .ok (.SLTU (Rd.decode w) (Rs1.decode w) (Rs2.decode w))
    | 4, 0 => .ok (.XOR (Rd.decode w) (Rs1.decode w) (Rs2.decode w))
    | 5, 0 => .ok (.SRL (Rd.decode w) (Rs1.decode w) (Rs2.decode w))
    | 5, 32 => .ok (.SRA (Rd.decode w) (Rs1.decode w) (Rs2.decode w))
    | 6, 0 => .ok (.OR (Rd.decode w) (Rs1.decode w) (Rs2.decode w))
    | 7, 0 => .ok (.AND (Rd.decode w) (Rs1.decode w) (Rs2.decode w))
    | _, _ => .error (.UnimplementedInstruction w)
  | 0x03 =>
    match Funct3.decode w with
    | 0 => .ok (.LB (Rd.decode w) (Rs1.decode w) (ImmI.decode w))
    | 1 => .ok (.LH (Rd.decode w) (Rs1.decode w) (ImmI.decode w))
    | 2 => .ok (.LW (Rd.decode w) (Rs1.decode w) (ImmI.decode w))
    | 4 => .ok (.LBU (Rd.decode w) (Rs1.decode w) (ImmI.decode w))
    | 5 => .ok (.LHU (Rd.decode w) (Rs1.decode w) (ImmI.decode w))
    | _ => .error (.UnimplementedInstruction w)
  | 0x23 =>
    match Funct3.decode w with
    | 0 => .ok (.SB (Rs1.decode w) (Rs2.decode w) (SImmI.decode w))
    | 1 => .ok (.SH (Rs1.decode w) (Rs2.decode w) (SImmI.decode w))
    | 2 => .ok (.SW (Rs1.decode w) (Rs2.decode w) (SImmI.decode w))
    | _ => .error (.UnimplementedInstruction w)
  | 0x73 =>
    match Funct3.decode w with
    | 1 => .ok (.CSRRW (Rd.decode w) (Rs1.decode w) (Csr.decode w))
    | 2 => .ok (.CSRRS (Rd.decode w) (Rs1.decode w) (Csr.decode w))
    | 3 => .ok (.CSRRC (Rd.decode w) (Rs1.decode w) (Csr.decode w))
    | 5 => .ok (.CSRRWI (Rd.decode w) (Csr.decode w) (CsrImm.decode w))
    | 6 => .ok (.CSRRSI (Rd.decode w) (Csr.decode w) (CsrImm.decode w))
    | 7 => .ok (.CSRRCI (Rd.decode w) (Csr.decode w) (CsrImm.decode w))
    | _ => .error (.UnimplementedInstruction w)
  | 0x6F => .ok (.JAL (Rd.decode w) (JImm.decode w))
  | 0x63 =>
    match Funct3.decode w with
    | 0 => .ok (.BEQ (Rs1.decode w) (Rs2.decode w) (BImm.decode w))
    | 1 => .ok (.BNE (Rs1.decode w) (Rs2.decode w) (BImm.decode w))
    | 4 => .ok (.BLT (Rs1.decode w) (Rs2.decode w) (BImm.decode w))
    | 5 => .ok (.BGE (Rs1.decode w) (Rs2.decode w) (BImm.decode w))
    | 6 => .ok (.BLTU (Rs1.decode w) (Rs2.decode w) (BImm.decode w))
    | 7 => .ok (.BGEU (Rs1.decode w) (Rs2.decode w) (BImm.decode w))
    | _ => .error (.UnimplementedInstruction w)
  | 0x67 =>
    match Funct3.decode w with
    | 0 => .ok (.JALR (Rd.decode w) (Rs1.decode w) (ImmI.decode w))
    | _ => .error (.UnimplementedInstruction w)
  | _ => .error (.UnimplementedInstruction w)

/-- `Instruction::encode` (`instructions/mod.rs`): the opcode/funct
constant of each variant (written in hex, e.g. `SRAI = 0x40005013` for
funct7 `0100000`, funct3 `101`, opcode `0010011`) plus the scattered
fields. -/
def Instruction.encode : Instruction → Nat
  | .LUI rd imm => 0x37 + U.encode rd imm
  | .AUIPC rd imm => 0x17 + U.encode rd imm
  | .ADDI rd rs1 imm => 0x13 + I.encode rd rs1 imm
  | .SLTI rd rs1 imm => 0x2013 + I.encode rd rs1 imm
  | .SLTIU rd rs1 imm => 0x3013 + I.encode rd rs1 imm
  | .XORI rd rs1 imm => 0x4013 + I.encode rd rs1 imm
  | .ORI rd rs1 imm => 0x6013 + I.encode rd rs1 imm
  | .ANDI rd rs1 imm => 0x7013 + I.encode rd rs1 imm
  | .SLLI rd rs1 shamt => 0x1013 + I.encode_shamt rd rs1 shamt
  | .SRLI rd rs1 shamt => 0x5013 + I.encode_shamt rd rs1 shamt
  | .SRAI rd rs1 shamt => 0x40005013 + I.encode_shamt rd rs1 shamt
  | .ADD rd rs1 rs2 => 0x33 + R.encode rd rs1 rs2
  | .SUB rd rs1 rs2 => 0x40000033 + R.encode rd rs1 rs2
  | .SLL rd rs1 rs2 => 0x1033 + R.encode rd rs1 rs2
  | .SLT rd rs1 rs2 => 0x2033 + R.encode rd rs1 rs2
  | .SLTU rd rs1 rs2 => 0x3033 + R.encode rd rs1 rs2
  | .XOR rd rs1 rs2 => 0x4033 + R.encode rd rs1 rs2
  | .SRL rd rs1 rs2 => 0x5033 + R.encode rd rs1 rs2
  | .SRA rd rs1 rs2 => 0x40005033 + R.encode rd rs1 rs2
  | .OR rd rs1 rs2 => 0x6033 + R.encode rd rs1 rs2
  | .AND rd rs1 rs2 => 0x7033 + R.encode rd rs1 rs2
  | .LB rd rs1 offset => 0x03 + I.encode rd rs1 offset
  | .LH rd rs1 offset => 0x1003 + I.encode rd rs1 offset
  | .LW rd rs1 offset => 0x2003 + I.encode rd rs1 offset
  | .LBU rd rs1 offset => 0x4003 + I.encode rd rs1 offset
  | .LHU rd rs1 offset => 0x5003 + I.encode rd rs1 offset
  | .SB rs1 rs2 offset => 0x23 + S.encode rs1 rs2 offset
  | .SH rs1 rs2 offset => 0x1023 + S.encode rs1 rs2 offset
  | .SW rs1 rs2 offset => 0x2023 + S.encode rs1 rs2 offset
  | .CSRRW rd rs1 csr => 0x1073 + I.encode_csr rd rs1 csr
  | .CSRRS rd rs1 csr => 0x2073 + I.encode_csr rd rs1 csr
  | .CSRRC rd rs1 csr => 0x3073 + I.encode_csr rd rs1 csr
  | .CSRRWI rd csr imm => 0x5073 + I.encode_csri rd imm csr
  | .CSRRSI rd csr imm => 0x6073 + I.encode_csri rd imm csr
  | .CSRRCI rd csr imm => 0x7073 + I.encode_csri rd imm csr
  | .JAL rd offset => 0x6F + J.encode rd offset
  | .JALR rd rs1 offset => 0x67 + I.encode rd rs1 offset
  | .BEQ rs1 rs2 offset => 0x63 + B.encode rs1 rs2 offset
  | .BNE rs1 rs2 offset => 0x1063 + B.encode rs1 rs2 offset
  | .BLT rs1 rs2 offset => 0x4063 + B.encode rs1 rs2 offset
  | .BGE rs1 rs2 offset => 0x5063 + B.encode rs1 rs2 offset
  | .BLTU rs1 rs2 offset => 0x6063 + B.encode rs1 rs2 offset
  | .BGEU rs1 rs2 offset => 0x7063 + B.encode rs1 rs2 offset

/-- `InstructionSet::execute` for `Instruction`
(`impl_instruction_set.rs`): consumes the instruction and the processor
state, returns the new state and the optional exception (the Rust
function mutates the processor through `&mut` and returns
`Result<(), Exception>`; an early `return Err(..)` leaves every mutation
up to that point in place — which is none, as the error checks come
first).  `pc` is pre-computed as `old pc + 4` and instructions that jump
overwrite it.  The `rs1 = ZERO` test in the CSRRW arm mirrors the two
Rust match arms `CSRRW { rd, rs1: Register::ZERO, csr }` /
`CSRRW { rd, rs1, csr }`, in that order.  `read rs2 % 32` is the
`rs2-value & SHIFT_MASK` of the register shift arms. -/
def Instruction.execute (i : Instruction) (p : Processor) : Processor × Option Exception :=
  let pc := wrap32 (p.pc + 4)
  match i with
  | .LUI rd imm =>
      ({ p with
         registers := p.registers.write rd (i32_shl imm 12), pc := pc }, none)
  | .AUIPC rd imm =>
      ({ p with
         registers := p.registers.write rd (wrap32 (p.pc + i32_shl imm 12)),
         pc := pc }, none)
  | .ADDI rd rs1 imm =>
      ({ p with
         registers := p.registers.write rd (wrap32 (p.registers.read rs1 + imm)),
         pc := pc }, none)
  | .SLTI rd rs1 imm =>
      ({ p with
         registers := p.registers.write rd (if p.registers.read rs1 < imm then 1 else 0),
         pc := pc }, none)
  | .SLTIU rd rs1 imm =>
      ({ p with
         registers :=
          p.registers.write rd (if toU32 (p.registers.read rs1) < toU32 imm then 1 else 0),
         pc := pc }, none)
  | .XORI rd rs1 imm =>
      ({ p with
         registers := p.registers.write rd (i32_xor (p.registers.read rs1) imm),
         pc := pc }, none)
  | .ORI rd rs1 imm =>
      ({ p with
         registers := p.registers.write rd (i32_or (p.registers.read rs1) imm),
         pc := pc }, none)
  | .ANDI rd rs1 imm =>
      ({ p with
         registers := p.registers.write rd (i32_and (p.registers.read rs1) imm),
         pc := pc }, none)
  | .SLLI rd rs1 shamt =>
      ({ p with
         registers := p.registers.write rd (i32_shl (p.registers.read rs1) shamt),
         pc := pc }, none)
  | .SRLI rd rs1 shamt =>
      ({ p with
         registers := p.registers.write rd (i32_lshr (p.registers.read rs1) shamt),
         pc := pc }, none)
  | .SRAI rd rs1 shamt =>
      ({ p with
         registers := p.registers.write rd (i32_ashr (p.registers.read rs1) shamt),
         pc := pc }, none)
  | .ADD rd rs1 rs2 =>
      ({ p with
         registers :=
          p.registers.write rd (wrap32 (p.registers.read rs1 + p.registers.read rs2)),
         pc := pc }, none)
  | .SUB rd rs1 rs2 =>
      ({ p with
         registers :=
          p.registers.write rd (wrap32 (p.registers.read rs1 - p.registers.read rs2)),
         pc := pc }, none)
  | .SLL rd rs1 rs2 =>
      ({ p with
         registers :=
          p.registers.write rd (i32_shl (p.registers.read rs1) ((p.registers.read rs2 % 32).toNat)),
         pc := pc }, none)
  | .SLT rd rs1 rs2 =>
      ({ p with
         registers :=
          p.registers.write rd (if p.registers.read rs1 < p.registers.read rs2 then 1 else 0),
         pc := pc }, none)
  | .SLTU rd rs1 rs2 =>
      ({ p with
         registers :=
          p.registers.write rd
            (if toU32 (p.registers.read rs1) < toU32 (p.registers.read rs2) then 1 else 0),
         pc := pc }, none)
  | .XOR rd rs1 rs2 =>
      ({ p with
         registers :=
          p.registers.write rd (i32_xor (p.registers.read rs1) (p.registers.read rs2)),
         pc := pc }, none)
  | .SRL rd rs1 rs2 =>
      ({ p with
         registers :=
          p.registers.write rd
            (i32_lshr (p.registers.read rs1) ((p.registers.read rs2 % 32).toNat)),
         pc := pc }, none)
  | .SRA rd rs1 rs2 =>
      ({ p with
         registers :=
          p.registers.write rd
            (i32_ashr (p.registers.read rs1) ((p.registers.read rs2 % 32).toNat)),
         pc := pc }, none)
  | .OR rd rs1 rs2 =>
      ({ p with
         registers :=
          p.registers.write rd (i32_or (p.registers.read rs1) (p.registers.read rs2)),
         pc := pc }, none)
  | .AND rd rs1 rs2 =>
      ({ p with
         registers :=
          p.registers.write rd (i32_and (p.registers.read rs1) (p.registers.read rs2)),
         pc := pc }, none)
  | .CSRRW rd rs1 csr =>
      if rs1 = Register.ZERO then
        ({ p with
         registers := p.registers.write rd (p.csrs.read csr), pc := pc }, none)
      else
        ({ p with
           registers := p.registers.write rd (p.csrs.read_write csr (p.registers.read rs1)).1,
           csrs := (p.csrs.read_write csr (p.registers.read rs1)).2, pc := pc }, none)
  | .CSRRS rd rs1 csr =>
      ({ p with
         registers := p.registers.write rd (p.csrs.set_bits csr (p.registers.read rs1)).1,
         csrs := (p.csrs.set_bits csr (p.registers.read rs1)).2, pc := pc }, none)
  | .CSRRC rd rs1 csr =>
      ({ p with
         registers := p.registers.write rd (p.csrs.clear_bits csr (p.registers.read rs1)).1,
         csrs := (p.csrs.clear_bits csr (p.registers.read rs1)).2, pc := pc }, none)
  | .CSRRWI rd csr imm =>
      ({ p with
         registers := p.registers.write rd (p.csrs.read_write csr ((imm : Nat) : Int)).1,
         csrs := (p.csrs.read_write csr ((imm : Nat) : Int)).2, pc := pc }, none)
  | .CSRRSI rd csr imm =>
      ({ p with
         registers := p.registers.write rd (p.csrs.set_bits csr ((imm : Nat) : Int)).1,
         csrs := (p.csrs.set_bits csr ((imm : Nat) : Int)).2, pc := pc }, none)
  | .CSRRCI rd csr imm =>
      ({ p with
         registers := p.registers.write rd (p.csrs.clear_bits csr ((imm : Nat) : Int)).1,
         csrs := (p.csrs.clear_bits csr ((imm : Nat) : Int)).2, pc := pc }, none)
  | .LB rd rs1 offset =>
      let res := p.memory.load_byte (toU32 (wrap32 (p.registers.read rs1 + offset)))
      ({ p with
         registers := p.registers.write rd res.1, memory := res.2, pc := pc }, none)
  | .LH rd rs1 offset =>
      let res := p.memory.load_half (toU32 (wrap32 (p.registers.read rs1 + offset)))
      ({ p with
         registers := p.registers.write rd res.1, memory := res.2, pc := pc }, none)
  | .LW rd rs1 offset =>
      let res := p.memory.load_word (toU32 (wrap32 (p.registers.read rs1 + offset)))
      ({ p with
         registers := p.registers.write rd res.1, memory := res.2, pc := pc }, none)
  | .LBU rd rs1 offset =>
      let res := p.memory.load_byte (toU32 (wrap32 (p.registers.read rs1 + offset)))
      ({ p with
         registers := p.registers.write rd (res.1 % 256), memory := res.2,
         pc := pc }, none)
  | .LHU rd rs1 offset =>
      let res := p.memory.load_half (toU32 (wrap32 (p.registers.read rs1 + offset)))
      ({ p with
         registers := p.registers.write rd (res.1 % 65536), memory := res.2,
         pc := pc }, none)
  | .SB rs1 rs2 offset =>
      ({ p with
         memory := p.memory.store_byte (toU32 (wrap32 (p.registers.read rs1 + offset)))
           (p.registers.read rs2),
         pc := pc }, none)
  | .SH rs1 rs2 offset =>
      ({ p with
         memory := p.memory.store_half (toU32 (wrap32 (p.registers.read rs1 + offset)))
           (p.registers.read rs2),
         pc := pc }, none)
  | .SW rs1 rs2 offset =>
      ({ p with
         memory := p.memory.store_word (toU32 (wrap32 (p.registers.read rs1 + offset)))
           (p.registers.read rs2),
         pc := pc }, none)
  | .JAL rd offset =>
      let jump := wrap32 (p.pc + offset)
      if Int.tmod jump 4 ≠ 0 then (p, some Exception.MisalignedInstructionFetch)
      else ({ p with
         registers := p.registers.write rd pc, pc := jump }, none)
  | .JALR rd rs1 offset =>
      let sum := wrap32 (p.registers.read rs1 + offset)
      let jump := sum - sum % 2
      if Int.tmod jump 4 ≠ 0 then (p, some Exception.MisalignedInstructionFetch)
      else ({ p with
         registers := p.registers.write rd pc, pc := jump }, none)
  | .BEQ rs1 rs2 offset =>
      if p.registers.read rs1 = p.registers.read rs2 then
        if Int.tmod offset 4 ≠ 0 then (p, some Exception.MisalignedInstructionFetch)
        else ({ p with pc := wrap32 (p.pc + offset) }, none)
      else ({ p with pc := pc }, none)
  | .BNE rs1 rs2 offset =>
      if p.registers.read rs1 ≠ p.registers.read rs2 then
        if Int.tmod offset 4 ≠ 0 then (p, some Exception.MisalignedInstructionFetch)
        else ({ p with pc := wrap32 (p.pc + offset) }, none)
      else ({ p with pc := pc }, none)
  | .BLT rs1 rs2 offset =>
      if p.registers.read rs1 < p.registers.read rs2 then
        if Int.tmod offset 4 ≠ 0 then (p, some Exception.MisalignedInstructionFetch)
        else ({ p with pc := wrap32 (p.pc + offset) }, none)
      else ({ p with pc := pc }, none)
  | .BGE rs1 rs2 offset =>
      if p.registers.read rs2 ≤ p.registers.read rs1 then
        if Int.tmod offset 4 ≠ 0 then (p, some Exception.MisalignedInstructionFetch)
        else ({ p with pc := wrap32 (p.pc + offset) }, none)
      else ({ p with pc := pc }, none)
  | .BLTU rs1 rs2 offset =>
      if toU32 (p.registers.read rs1) < toU32 (p.registers.read rs2) then
        if Int.tmod offset 4 ≠ 0 then (p, some Exception.MisalignedInstructionFetch)
        else ({ p with pc := wrap32 (p.pc + offset) }, none)
      else ({ p with pc := pc }, none)
  | .BGEU rs1 rs2 offset =>
      if toU32 (p.registers.read rs2) ≤ toU32 (p.registers.read rs1) then
        if Int.tmod offset 4 ≠ 0 then (p, some Exception.MisalignedInstructionFetch)
        else ({ p with pc := wrap32 (p.pc + offset) }, none)
      else ({ p with pc := pc }, none)

/-- `integer.rs`, module `i12`: the smallest `i12` value. -/
def i12.MIN : Int := -2048

/-- `integer.rs`, module `i12`: the largest `i12` value. -/
def i12.MAX : Int := 2047

/-- `integer.rs`, `i12::is_positive`: `value & 0b1000_0000_0000 == 0` —
bit 11 of the value is clear. -/
def i12.IsPositive (v : Int) : Prop := v / 2048 % 2 = 0

instance (v : Int) : Decidable (i12.IsPositive v) := by
  unfold i12.IsPositive
  infer_instance

/-- `integer.rs`, `i12::sign_extend`: positive values keep their low 11
bits (`value & 0x7FF`); negative values keep their low 12 bits with the
top 4 bits of the `i16` set (`value & 0xFFF | 0xF000`, reinterpreted as
`i16`). -/
def i12.sign_extend (v : Int) : Int :=
  if i12.IsPositive v then v % 2048 else sext16 (v % 4096 + 61440)

/-- `pseudoinstructions.rs`, `with_signed_i12_adjustment`: 1 exactly when
the low 12 bits of the value, read as a signed 12-bit integer, are
negative. -/
def with_signed_i12_adjustment (v : Int) : Int :=
  if i12.IsPositive v then 0 else 1

/-- `Instruction::LI` (`pseudoinstructions.rs`), as the list of
instructions its `PseudoinstructionMappingIter` yields: one `ADDI` off
`x0` when the immediate fits the 12-bit window, otherwise `LUI` of
`(imm >> 12) + adjustment` followed by `ADDI rd, rd, sign_extend(imm)`
(`imm >> 12` is the arithmetic shift of the `i32`, i.e. floor division
by 4096). -/
def Instruction.LI (rd : Register) (imm : Int) : List Instruction :=
  if i12.MIN ≤ imm ∧ imm ≤ i12.MAX then
    [.ADDI rd .ZERO imm]
  else
    [.LUI rd (imm / 4096 + with_signed_i12_adjustment imm),
     .ADDI rd rd (i12.sign_extend imm)]

/-- The processor state machine of spec §4.6: `Running` carries the state
after a successful step, `Halted` is terminal. -/
inductive StepResult
  | running (p : Processor)
  | halted (p : Processor)

/-- Modelled from the spec: the execute half of `step` — an exception from
`execute` folds into the terminal Halted state, otherwise the processor
keeps Running with the post-execute state. -/
def stepExec (res : Processor × Option Exception) : StepResult :=
  match res with
  | (p2, some _) => .halted p2
  | (p2, none) => .running p2

/-- Modelled from the spec: the decode half of `step` — a decode
exception folds into the terminal Halted state, a decoded instruction is
executed against the processor. -/
def stepDecoded (p1 : Processor) : Except Exception Instruction → StepResult
  | .error _ => .halted p1
  | .ok i => stepExec (Instruction.execute i p1)

/-- Modelled from the spec: `Processor::step` is not under `src/` (the
snapshot's `processor.rs` is an older revision without CSRs or a step
loop; only callers such as the `processor_test!` macro remain).  Per spec
§4.6: fetch 4 bytes at `pc` as a little-endian 32-bit word, `decode` it,
`execute` it; on any `Exception` from either decode or execute transition
to the terminal Halted state, otherwise remain Running with the new
`pc`. -/
def Processor.step (p : Processor) : StepResult :=
  stepDecoded { p with memory := (p.memory.load_word (toU32 p.pc)).2 }
    (Instruction.decode (toU32 (p.memory.load_word (toU32 p.pc)).1))

/-- The zeroed processor (`Processor::default()`): all registers, CSRs
and the pc zero, the memory empty. -/
def P0 : Processor :=
  { registers := { zero := 0, scratch := 0, cells := fun _ => 0 },
    pc := 0, csrs := ⟨fun _ => 0⟩, memory := ⟨[]⟩ }

/-- The zeroed processor with `pc = 84` (the JAL / JALR misalignment
scenario of the spec). -/
def P84 : Processor := { P0 with pc := 84 }

/-- The zeroed processor with `pc = 2` (a non-4-aligned pc, for the
branch alignment-check claim). -/
def P2 : Processor := { P0 with pc := 2 }

/-- The zeroed processor with CSR 20 pre-set to 7 (the CSRRW scenario of
the spec). -/
def P20 : Processor := { P0 with csrs := ⟨fun j => if j = 20 then 7 else 0⟩ }

/-- The destination register of an instruction, when it has one
(claim-side helper: branches and stores have none). -/
def Instruction.rdOf : Instruction → Option Register
  | .LUI rd _ => some rd
  | .AUIPC rd _ => some rd
  | .ADDI rd _ _ => some rd
  | .SLTI rd _ _ => some rd
  | .SLTIU rd _ _ => some rd
  | .XORI rd _ _ => some rd
  | .ORI rd _ _ => some rd
  | .ANDI rd _ _ => some rd
  | .SLLI rd _ _ => some rd
  | .SRLI rd _ _ => some rd
  | .SRAI rd _ _ => some rd
  | .ADD rd _ _ => some rd
  | .SUB rd _ _ => some rd
  | .SLL rd _ _ => some rd
  | .SLT rd _ _ => some rd
  | .SLTU rd _ _ => some rd
  | .XOR rd _ _ => some rd
  | .SRL rd _ _ => some rd
  | .SRA rd _ _ => some rd
  | .OR rd _ _ => some rd
  | .AND rd _ _ => some rd
  | .LB rd _ _ => some rd
  | .LH rd _ _ => some rd
  | .LW rd _ _ => some rd
  | .LBU rd _ _ => some rd
  | .LHU rd _ _ => some rd
  | .SB _ _ _ => none
  | .SH _ _ _ => none
  | .SW _ _ _ => none
  | .CSRRW rd _ _ => some rd
  | .CSRRS rd _ _ => some rd
  | .CSRRC rd _ _ => some rd
  | .CSRRWI rd _ _ => some rd
  | .CSRRSI rd _ _ => some rd
  | .CSRRCI rd _ _ => some rd
  | .JAL rd _ => some rd
  | .JALR rd _ _ => some rd
  | .BEQ _ _ _ => none
  | .BNE _ _ _ => none
  | .BLT _ _ _ => none
  | .BGE _ _ _ => none
  | .BLTU _ _ _ => none
  | .BGEU _ _ _ => none

/-- The instruction is a JAL, a JALR, or a branch whose condition holds
in the given state (claim-side helper: exactly the situations in which
`execute` can raise an exception). -/
def Instruction.isJumpOrTakenBranch (i : Instruction) (p : Processor) : Prop :=
  match i with
  | .JAL _ _ => True
  | .JALR _ _ _ => True
  | .BEQ rs1 rs2 _ => p.registers.read rs1 = p.registers.read rs2
  | .BNE rs1 rs2 _ => p.registers.read rs1 ≠ p.registers.read rs2
  | .BLT rs1 rs2 _ => p.registers.read rs1 < p.registers.read rs2
  | .BGE rs1 rs2 _ => p.registers.read rs2 ≤ p.registers.read rs1
  | .BLTU rs1 rs2 _ => toU32 (p.registers.read rs1) < toU32 (p.registers.read rs2)
  | .BGEU rs1 rs2 _ => toU32 (p.registers.read rs2) ≤ toU32 (p.registers.read rs1)
  | _ => False

theorem Registers.write_zero_eq (r : Registers) (i : Register) (v : Int) :
    (r.write i v).zero = r.zero := by
  unfold Registers.write
  split <;> rfl

theorem execute_preserves_zero_cell (i : Instruction) (p : Processor) :
    ((Instruction.execute i p).1).registers.zero = p.registers.zero := by
  cases i <;>
    simp only [Instruction.execute] <;>
    (try split_ifs) <;>
    simp [Registers.write_zero_eq]

theorem i32_shl_mod32 (v : Int) (s : Nat) : i32_shl v (s % 32) = i32_shl v s := by
  have h : s % 32 % 32 = s % 32 := by omega
  unfold i32_shl
  rw [h]

theorem i32_lshr_mod32 (v : Int) (s : Nat) : i32_lshr v (s % 32) = i32_lshr v s := by
  have h : s % 32 % 32 = s % 32 := by omega
  unfold i32_lshr
  rw [h]

theorem i32_ashr_mod32 (v : Int) (s : Nat) : i32_ashr v (s % 32) = i32_ashr v s := by
  have h : s % 32 % 32 = s % 32 := by omega
  unfold i32_ashr
  rw [h]

set_option maxHeartbeats 1000000 in
theorem decode_error_shape (w : Nat) (e : Exception)
    (h : Instruction.decode w = .error e) : e = .UnimplementedInstruction w := by
  rw [Instruction.decode.eq_def] at h
  split at h <;>
    first
      | (injection h with h; exact h.symm)
      | exact absurd h (by simp)
      | (split at h <;>
          first
            | (injection h with h; exact h.symm)
            | exact absurd h (by simp)
            | (split at h <;>
                first
                  | (injection h with h; exact h.symm)
                  | exact absurd h (by simp)))

/-- C1: for every processor state and every JAL or JALR instruction,
`execute` computes the jump target (pc+offset for JAL; (rs1+offset) with
bit 0 forced to 0 for JALR) and validates that the target is a multiple
of 4 BEFORE writing anything: when the target is misaligned it returns
`Exception::MisalignedInstructionFetch` with the processor state — the
return-address register included — exactly as it was; only when the
target is aligned does it write the return address old pc + 4 to `rd`
(discarded if rd = ZERO) and commit the target to the pc.  (This is the
claim with the order of the link-register write and the alignment check
reversed, as the counterexample forces.) -/
theorem jal_jalr_validate_before_link_write (p : Processor) (rd rs1 : Register)
    (offset offI : Int) :
    (Instruction.execute (.JAL rd offset) p =
      if Int.tmod (wrap32 (p.pc + offset)) 4 ≠ 0 then
        (p, some Exception.MisalignedInstructionFetch)
      else
        ({ p with
            registers := p.registers.write rd (wrap32 (p.pc + 4)),
            pc := wrap32 (p.pc + offset) }, none)) ∧
    (Instruction.execute (.JALR rd rs1 offI) p =
      if Int.tmod (wrap32 (p.registers.read rs1 + offI)
          - wrap32 (p.registers.read rs1 + offI) % 2) 4 ≠ 0 then
        (p, some Exception.MisalignedInstructionFetch)
      else
        ({ p with
            registers := p.registers.write rd (wrap32 (p.pc + 4)),
            pc := wrap32 (p.registers.read rs1 + offI)
              - wrap32 (p.registers.read rs1 + offI) % 2 }, none)) := by
  constructor <;> rfl

/-- C1 counterexample: `JAL{rd: RA, offset: -42}` executed at `pc = 84`
raises `MisalignedInstructionFetch`, but contrary to the claim the
processor state is returned untouched: register RA still reads 0, not
`pc + 4 = 88` — the link-register write was never committed. -/
theorem jal_misaligned_leaves_ra_unchanged :
    Instruction.execute (.JAL .RA (-42)) P84 =
      (P84, some Exception.MisalignedInstructionFetch) ∧
    (Instruction.execute (.JAL .RA (-42)) P84).1.registers.read .RA = 0 := by
  constructor <;> rfl

/-- C2: for every processor state, executing CSRRW special-cases
`rs1 = ZERO` (not `rd = ZERO`): when `rs1` is the zero register only the
read path runs — the old CSR value is written to `rd` and the CSR cell is
left untouched; otherwise the old CSR value is written to `rd` and the
CSR cell is overwritten with `rs1`'s value.  (This is the claim with the
special-cased register corrected from `rd` to `rs1`, as the
counterexample forces.) -/
theorem csrrw_special_cases_rs1_zero (p : Processor) (rd rs1 : Register) (csr : Nat) :
    Instruction.execute (.CSRRW rd rs1 csr) p =
      if rs1 = Register.ZERO then
        ({ p with
            registers := p.registers.write rd (p.csrs.read csr),
            pc := wrap32 (p.pc + 4) }, none)
      else
        ({ p with
            registers := p.registers.write rd (p.csrs.read csr),
            csrs := p.csrs.write csr (p.registers.read rs1),
            pc := wrap32 (p.pc + 4) }, none) := by
  simp only [Instruction.execute]
  split_ifs <;> rfl

/-- C2 counterexample: `CSRRW{rd: A0, rs1: ZERO, csr: 20}` with CSR[20]
pre-set to 7 performs ONLY the read path: CSR[20] still holds 7 afterwards
(the claim's write of `rs1`'s value 0 never happens) and A0 receives the
old CSR value 7 (the claim said the read is suppressed). -/
theorem csrrw_rs1_zero_reads_only :
    Instruction.execute (.CSRRW .A0 .ZERO 20) P20 =
      ({ P20 with registers := P20.registers.write .A0 7, pc := 4 }, none) ∧
    (Instruction.execute (.CSRRW .A0 .ZERO 20) P20).1.csrs.read 20 = 7 ∧
    (Instruction.execute (.CSRRW .A0 .ZERO 20) P20).1.registers.read .A0 = 7 := by
  refine ⟨?_, rfl, rfl⟩
  rfl

/-- C4: for every processor state and every branch instruction, `execute`
evaluates the signed or unsigned condition per mnemonic; only when the
condition is true does it validate that the OFFSET (not the target) is a
multiple of 4, returning `Exception::MisalignedInstructionFetch` when
that fails, and otherwise sets pc = pc + offset; when the condition is
false the pc simply advances by 4 and no alignment check is performed.
(This is the claim with the alignment check corrected from the target
`pc + offset` to the raw offset, as the counterexample forces.) -/
theorem branch_validates_offset_alignment (p : Processor) (rs1 rs2 : Register)
    (offset : Int) :
    (Instruction.execute (.BEQ rs1 rs2 offset) p =
      if p.registers.read rs1 = p.registers.read rs2 then
        if Int.tmod offset 4 ≠ 0 then (p, some Exception.MisalignedInstructionFetch)
        else ({ p with pc := wrap32 (p.pc + offset) }, none)
      else ({ p with pc := wrap32 (p.pc + 4) }, none)) ∧
    (Instruction.execute (.BNE rs1 rs2 offset) p =
      if p.registers.read rs1 ≠ p.registers.read rs2 then
        if Int.tmod offset 4 ≠ 0 then (p, some Exception.MisalignedInstructionFetch)
        else ({ p with pc := wrap32 (p.pc + offset) }, none)
      else ({ p with pc := wrap32 (p.pc + 4) }, none)) ∧
    (Instruction.execute (.BLT rs1 rs2 offset) p =
      if p.registers.read rs1 < p.registers.read rs2 then
        if Int.tmod offset 4 ≠ 0 then (p, some Exception.MisalignedInstructionFetch)
        else ({ p with pc := wrap32 (p.pc + offset) }, none)
      else ({ p with pc := wrap32 (p.pc + 4) }, none)) ∧
    (Instruction.execute (.BGE rs1 rs2 offset) p =
      if p.registers.read rs2 ≤ p.registers.read rs1 then
        if Int.tmod offset 4 ≠ 0 then (p, some Exception.MisalignedInstructionFetch)
        else ({ p with pc := wrap32 (p.pc + offset) }, none)
      else ({ p with pc := wrap32 (p.pc + 4) }, none)) ∧
    (Instruction.execute (.BLTU rs1 rs2 offset) p =
      if toU32 (p.registers.read rs1) < toU32 (p.registers.read rs2) then
        if Int.tmod offset 4 ≠ 0 then (p, some Exception.MisalignedInstructionFetch)
        else ({ p with pc := wrap32 (p.pc + offset) }, none)
      else ({ p with pc := wrap32 (p.pc + 4) }, none)) ∧
    (Instruction.execute (.BGEU rs1 rs2 offset) p =
      if toU32 (p.registers.read rs2) ≤ toU32 (p.registers.read rs1) then
        if Int.tmod offset 4 ≠ 0 then (p, some Exception.MisalignedInstructionFetch)
        else ({ p with pc := wrap32 (p.pc + offset) }, none)
      else ({ p with pc := wrap32 (p.pc + 4) }, none)) := by
  refine ⟨rfl, rfl, rfl, rfl, rfl, rfl⟩

/-- C4 counterexample: a taken BEQ with offset 4 at the non-aligned
`pc = 2` jumps to the misaligned target 6 WITHOUT raising an exception —
the code validates the offset, not the target `pc + offset` as the claim
states. -/
theorem branch_taken_to_misaligned_target_no_exception :
    Instruction.execute (.BEQ .T1 .T2 4) P2 = ({ P2 with pc := 6 }, none) ∧
      Int.tmod (6 : Int) 4 ≠ 0 := by
  constructor
  · rfl
  · decide

/-- C5: every shift instruction shifts by the low 5 bits of the shift
amount: the immediate forms SLLI/SRLI/SRAI behave identically on `shamt`
and on `shamt % 32` (the `i32` shift primitive masks its amount to the
register width), and the register forms SLL/SRL/SRA mask the value of
rs2 with `SHIFT_MASK` (its low 5 bits, `rs2 % 32`) before shifting.
SRL and SRA both shift right, distinguished by reinterpreting the
operand: SRL shifts the `u32` bit pattern (`toU32`) logically and
reinterprets the result as signed, SRA floor-divides the signed value
itself. -/
theorem shift_amount_masked_to_five_bits (p : Processor) (rd rs1 rs2 : Register)
    (shamt : Nat) :
    (Instruction.execute (.SLLI rd rs1 shamt) p =
      Instruction.execute (.SLLI rd rs1 (shamt % 32)) p) ∧
    (Instruction.execute (.SRLI rd rs1 shamt) p =
      Instruction.execute (.SRLI rd rs1 (shamt % 32)) p) ∧
    (Instruction.execute (.SRAI rd rs1 shamt) p =
      Instruction.execute (.SRAI rd rs1 (shamt % 32)) p) ∧
    (Instruction.execute (.SLL rd rs1 rs2) p =
      ({ p with
          registers := p.registers.write rd
            (i32_shl (p.registers.read rs1) ((p.registers.read rs2 % 32).toNat)),
          pc := wrap32 (p.pc + 4) }, none)) ∧
    (Instruction.execute (.SRL rd rs1 rs2) p =
      ({ p with
          registers := p.registers.write rd
            (wrap32 ((toU32 (p.registers.read rs1) /
              2 ^ ((p.registers.read rs2 % 32).toNat) : Nat) : Int)),
          pc := wrap32 (p.pc + 4) }, none)) ∧
    (Instruction.execute (.SRA rd rs1 rs2) p =
      ({ p with
          registers := p.registers.write rd
            (p.registers.read rs1 / 2 ^ ((p.registers.read rs2 % 32).toNat)),
          pc := wrap32 (p.pc + 4) }, none)) := by
  have hs : ((p.registers.read rs2 % 32).toNat % 32) = (p.registers.read rs2 % 32).toNat := by
    omega
  refine ⟨?_, ?_, ?_, ?_, ?_, ?_⟩
  · simp only [Instruction.execute, i32_shl_mod32]
  · simp only [Instruction.execute, i32_lshr_mod32]
  · simp only [Instruction.execute, i32_ashr_mod32]
  · rfl
  · simp only [Instruction.execute, i32_lshr, hs]
  · simp only [Instruction.execute, i32_ashr, hs]

/-- C6: register 0 is always observably zero: on every Rust-constructible
processor state (the readable cell of the zero register holds 0) and
every instruction whose destination register is ZERO, after execution
reading register 0 — via `Register::ZERO` or via raw index 0 — yields 0,
regardless of the value the instruction attempted to write. -/
theorem register_zero_always_reads_zero (p : Processor) (i : Instruction)
    (hz : p.registers.zero = 0) (hrd : i.rdOf = some Register.ZERO) :
    ((Instruction.execute i p).1).registers.read Register.ZERO = 0 ∧
      ((Instruction.execute i p).1).registers.readIdx 0 = some 0 := by
  have h := execute_preserves_zero_cell i p
  have hread : ((Instruction.execute i p).1).registers.read Register.ZERO = 0 := by
    unfold Registers.read
    simp [h, hz]
  refine ⟨hread, ?_⟩
  unfold Registers.readIdx
  have h0 : Register.ofNat5 0 = Register.ZERO := rfl
  simp [h0, hread]

theorem register_zero_always_reads_zero_witness :
    P0.registers.zero = 0 ∧ (Instruction.ADDI .ZERO .RA 7).rdOf = some Register.ZERO ∧
      (((Instruction.execute (.ADDI .ZERO .RA 7) P0).1).registers.read Register.ZERO = 0 ∧
        ((Instruction.execute (.ADDI .ZERO .RA 7) P0).1).registers.readIdx 0 = some 0) :=
  ⟨rfl, rfl, register_zero_always_reads_zero P0 (.ADDI .ZERO .RA 7) rfl rfl⟩

/-- C7: `decode` is total on u32 — for every 32-bit word it either
succeeds or fails with `Exception::UnimplementedInstruction` carrying the
offending word; no other failure (and no panic) is possible. -/
theorem decode_total_unimplemented_carries_word (w : Nat) (hw : w < 4294967296) :
    Instruction.decode w = .error (.UnimplementedInstruction w) ∨
      ∃ i, Instruction.decode w = .ok i := by
  cases hd : Instruction.decode w with
  | error e => exact Or.inl (by rw [decode_error_shape w e hd])
  | ok i => exact Or.inr ⟨i, rfl⟩

theorem decode_total_unimplemented_carries_word_witness :
    0 < 4294967296 ∧
      (Instruction.decode 0 = .error (.UnimplementedInstruction 0) ∨
        ∃ i, Instruction.decode 0 = .ok i) :=
  ⟨by norm_num, decode_total_unimplemented_carries_word 0 (by norm_num)⟩

/-- C10: `execute` is atomic on error: whenever it reports an exception,
that exception is `MisalignedInstructionFetch`, the returned processor
state — registers, pc, CSR bank and memory — is exactly the input state,
and the instruction was a JAL, a JALR, or a branch whose condition held.
No partial side effect is committed. -/
theorem execute_atomic_on_error (i : Instruction) (p : Processor) (e : Exception)
    (h : (Instruction.execute i p).2 = some e) :
    e = Exception.MisalignedInstructionFetch ∧ (Instruction.execute i p).1 = p ∧
      i.isJumpOrTakenBranch p := by
  cases i <;>
    simp only [Instruction.execute, Instruction.isJumpOrTakenBranch] at h ⊢ <;>
    (try split_ifs at h ⊢) <;>
    simp_all

theorem isPositive_iff_sext12_nonneg (v : Int) : i12.IsPositive v ↔ 0 ≤ sext12 v := by
  unfold i12.IsPositive sext12
  omega

theorem sign_extend_eq_sext12 (v : Int) : i12.sign_extend v = sext12 v := by
  unfold i12.sign_extend i12.IsPositive sext12 sext16
  split_ifs <;> omega

theorem adjustment_eq (v : Int) :
    with_signed_i12_adjustment v = if sext12 v < 0 then 1 else 0 := by
  unfold with_signed_i12_adjustment i12.IsPositive sext12
  split_ifs <;> omega

/-- C8: for every destination register and 32-bit immediate, `LI(rd,
imm)` expands to exactly one `ADDI rd, x0, imm` when `imm` fits the
12-bit signed window, and otherwise to exactly `LUI rd, (imm >> 12) +
adjustment` followed by `ADDI rd, rd, sign_extend_12(imm)`, where the
adjustment is 1 exactly when the low 12 bits of `imm`, read as a signed
12-bit value (`sext12`), are negative; in particular `LI(rd, -2048)` is
one ADDI and `LI(rd, 0x12345678)` is `[LUI, ADDI]`. -/
theorem li_expansion (rd : Register) (imm : Int)
    (hlo : -2147483648 ≤ imm) (hhi : imm < 2147483648) :
    Instruction.LI rd imm =
      (if -2048 ≤ imm ∧ imm ≤ 2047 then [.ADDI rd .ZERO imm]
       else [.LUI rd (imm / 4096 + if sext12 imm < 0 then 1 else 0),
             .ADDI rd rd (sext12 imm)]) ∧
    Instruction.LI rd (-2048) = [.ADDI rd .ZERO (-2048)] ∧
    Instruction.LI rd 305419896 = [.LUI rd 74565, .ADDI rd rd 1656] := by
  refine ⟨?_, ?_, ?_⟩
  · unfold Instruction.LI
    rw [adjustment_eq, sign_extend_eq_sext12]
    rfl
  · rfl
  · show Instruction.LI rd 305419896 = _
    unfold Instruction.LI
    norm_num [with_signed_i12_adjustment, i12.IsPositive, i12.sign_extend, i12.MIN, i12.MAX]

theorem li_expansion_witness :
    Instruction.LI .T1 0 =
      (if -2048 ≤ (0 : Int) ∧ (0 : Int) ≤ 2047 then [.ADDI .T1 .ZERO 0]
       else [.LUI .T1 ((0 : Int) / 4096 + if sext12 0 < 0 then 1 else 0),
             .ADDI .T1 .T1 (sext12 0)]) ∧
    Instruction.LI .T1 (-2048) = [.ADDI .T1 .ZERO (-2048)] ∧
    Instruction.LI .T1 305419896 = [.LUI .T1 74565, .ADDI .T1 .T1 1656] :=
  li_expansion .T1 0 (by norm_num) (by norm_num)

theorem Memory.byte_lt (m : Memory) (i : Nat) : m.byte i < 256 := by
  unfold Memory.byte
  omega

theorem toU32_sext32 (n : Nat) (h : n < 4294967296) : toU32 (sext32 (n : Int)) = n := by
  unfold toU32 sext32
  omega

/-- C9: `step()` fetches 4 bytes at `pc` as a little-endian 32-bit word
(the first conjunct: the fetched word, reinterpreted unsigned, is exactly
`b0 + 256·b1 + 65536·b2 + 16777216·b3` of the grown memory), decodes it
and executes it against the processor; on an exception from either decode
or execute the result is the terminal `Halted` state, otherwise it is
`Running` with the post-execute state (in particular the new pc). -/
theorem step_fetch_decode_execute_halt_on_exception (p : Processor) :
    toU32 (p.memory.load_word (toU32 p.pc)).1 =
      ((p.memory.load_word (toU32 p.pc)).2).byte (toU32 p.pc)
      + 256 * ((p.memory.load_word (toU32 p.pc)).2).byte (toU32 p.pc + 1)
      + 65536 * ((p.memory.load_word (toU32 p.pc)).2).byte (toU32 p.pc + 2)
      + 16777216 * ((p.memory.load_word (toU32 p.pc)).2).byte (toU32 p.pc + 3) ∧
    ((∃ e, Instruction.decode (toU32 (p.memory.load_word (toU32 p.pc)).1) = .error e ∧
        p.step = .halted { p with memory := (p.memory.load_word (toU32 p.pc)).2 }) ∨
     (∃ i, Instruction.decode (toU32 (p.memory.load_word (toU32 p.pc)).1) = .ok i ∧
        ((∃ e, (Instruction.execute i { p with memory := (p.memory.load_word (toU32 p.pc)).2 }).2
            = some e ∧
          p.step = .halted
            (Instruction.execute i { p with memory := (p.memory.load_word (toU32 p.pc)).2 }).1) ∨
         ((Instruction.execute i { p with memory := (p.memory.load_word (toU32 p.pc)).2 }).2
            = none ∧
          p.step = .running
            (Instruction.execute i { p with memory := (p.memory.load_word (toU32 p.pc)).2 }).1)))) := by
  constructor
  · simp only [Memory.load_word]
    apply toU32_sext32
    have b0 := Memory.byte_lt (p.memory.resize 4 (toU32 p.pc)) (toU32 p.pc)
    have b1 := Memory.byte_lt (p.memory.resize 4 (toU32 p.pc)) (toU32 p.pc + 1)
    have b2 := Memory.byte_lt (p.memory.resize 4 (toU32 p.pc)) (toU32 p.pc + 2)
    have b3 := Memory.byte_lt (p.memory.resize 4 (toU32 p.pc)) (toU32 p.pc + 3)
    omega
  · cases hd : Instruction.decode (toU32 (p.memory.load_word (toU32 p.pc)).1) with
    | error e =>
      refine Or.inl ⟨e, rfl, ?_⟩
      unfold Processor.step
      rw [hd]
      rfl
    | ok i =>
      refine Or.inr ⟨i, rfl, ?_⟩
      rcases hp : Instruction.execute i { p with memory := (p.memory.load_word (toU32 p.pc)).2 }
        with ⟨p2, s⟩
      cases s with
      | some e =>
        refine Or.inl ⟨e, rfl, ?_⟩
        unfold Processor.step
        rw [hd]
        show stepExec _ = _
        rw [hp]
        rfl
      | none =>
        refine Or.inr ⟨rfl, ?_⟩
        unfold Processor.step
        rw [hd]
        show stepExec _ = _
        rw [hp]
        rfl

theorem execute_atomic_on_error_witness :
    (Instruction.execute (.JAL .RA (-42)) P84).2 = some Exception.MisalignedInstructionFetch ∧
      (Exception.MisalignedInstructionFetch = Exception.MisalignedInstructionFetch ∧
        (Instruction.execute (.JAL .RA (-42)) P84).1 = P84 ∧
        (Instruction.JAL .RA (-42)).isJumpOrTakenBranch P84) :=
  ⟨rfl, execute_atomic_on_error (.JAL .RA (-42)) P84 Exception.MisalignedInstructionFetch rfl⟩

/-- `Register::const_from` composed with the discriminant: the five-bit
field comes back unchanged. -/
theorem toNat_ofNat5 (k : Nat) : (Register.ofNat5 k).toNat = k % 32 := by
  unfold Register.ofNat5
  have h : k % 32 < 32 := Nat.mod_lt _ (by norm_num)
  generalize hm : k % 32 = m at *
  interval_cases m <;> rfl

theorem rd_rt (w : Nat) : Rd.encode (Rd.decode w) = w / 128 % 32 * 128 := by
  unfold Rd.encode Rd.decode
  rw [toNat_ofNat5]
  omega

theorem rs1_rt (w : Nat) : Rs1.encode (Rs1.decode w) = w / 32768 % 32 * 32768 := by
  unfold Rs1.encode Rs1.decode
  rw [toNat_ofNat5]
  omega

theorem rs2_rt (w : Nat) : Rs2.encode (Rs2.decode w) = w / 1048576 % 32 * 1048576 := by
  unfold Rs2.encode Rs2.decode
  rw [toNat_ofNat5]
  omega

theorem shamt_rt (w : Nat) : Shamt.encode (Shamt.decode w) = w / 1048576 % 64 * 1048576 := by
  unfold Shamt.encode Shamt.decode
  omega

theorem csr_rt (w : Nat) (hw : w < 4294967296) :
    Csr.encode (Csr.decode w) = w / 1048576 * 1048576 := by
  unfold Csr.encode Csr.decode
  omega

theorem csrimm_rt (w : Nat) : CsrImm.encode (CsrImm.decode w) = w / 32768 % 32 * 32768 := by
  unfold CsrImm.encode CsrImm.decode
  omega

theorem immU_rt (w : Nat) (hw : w < 4294967296) :
    ImmU.encode (ImmU.decode w) = w / 4096 * 4096 := by
  unfold ImmU.encode ImmU.decode toU32
  omega

theorem immI_rt (w : Nat) (hw : w < 4294967296) :
    ImmI.encode (ImmI.decode w) = w / 1048576 * 1048576 := by
  unfold ImmI.encode ImmI.decode toU32 sext16 sext32
  omega

theorem simmI_rt (w : Nat) (hw : w < 4294967296) :
    SImmI.encode (SImmI.decode w) = w / 33554432 * 33554432 + w / 128 % 32 * 128 := by
  unfold SImmI.encode SImmI.decode sext16 sext32
  omega

/-- The scrambled B immediate, written as direct field extractions of the
word (sign bit scaled by `-4096`, `imm[11]`, `imm[10:5]`, `imm[4:1]`). -/
theorem bimm_decode_closed (w : Nat) (hw : w < 4294967296) :
    BImm.decode w = ((w / 2147483648 % 2 : Nat) : Int) * (-4096)
      + ((w / 128 % 2 * 2048 : Nat) : Int)
      + ((w / 33554432 % 64 * 32 : Nat) : Int)
      + ((w / 256 % 16 * 2 : Nat) : Int) := by
  have hb : w / 2147483648 % 2 = 0 ∨ w / 2147483648 % 2 = 1 := by omega
  rcases hb with hb | hb <;> simp only [BImm.decode, sext16, sext32, hb] <;> omega

/-- `BImm.encode` scatters independent fields back to their bit
positions. -/
theorem bimm_encode_fields (b A B C : Nat) (hb : b < 2) (hA : A < 2) (hB : B < 64)
    (hC : C < 16) :
    BImm.encode (((b : Nat) : Int) * (-4096) + ((A * 2048 : Nat) : Int)
        + ((B * 32 : Nat) : Int) + ((C * 2 : Nat) : Int))
      = b * 2147483648 + A * 128 + B * 33554432 + C * 256 := by
  interval_cases b <;> simp only [BImm.encode, toU32] <;> omega

theorem bimm_rt (w : Nat) (hw : w < 4294967296) :
    BImm.encode (BImm.decode w) = w / 33554432 * 33554432 + w / 128 % 32 * 128 := by
  rw [bimm_decode_closed w hw,
    bimm_encode_fields (w / 2147483648 % 2) (w / 128 % 2) (w / 33554432 % 64) (w / 256 % 16)
      (by omega) (by omega) (by omega) (by omega)]
  omega

/-- The scrambled J immediate as direct field extractions of the word. -/
theorem jimm_decode_closed (w : Nat) (hw : w < 4294967296) :
    JImm.decode w = ((w / 4096 % 256 * 4096 : Nat) : Int)
      + ((w / 2147483648 % 2 : Nat) : Int) * (-1048576)
      + ((w / 2097152 % 1024 * 2 : Nat) : Int)
      + ((w / 1048576 % 2 * 2048 : Nat) : Int) := by
  have hb : w / 2147483648 % 2 = 0 ∨ w / 2147483648 % 2 = 1 := by omega
  rcases hb with hb | hb <;> simp only [JImm.decode, sext32, hb] <;> omega

/-- `JImm.encode` scatters independent fields back to their bit
positions. -/
theorem jimm_encode_fields (D b E F : Nat) (hD : D < 256) (hb : b < 2) (hE : E < 1024)
    (hF : F < 2) :
    JImm.encode (((D * 4096 : Nat) : Int) + ((b : Nat) : Int) * (-1048576)
        + ((E * 2 : Nat) : Int) + ((F * 2048 : Nat) : Int))
      = b * 2147483648 + E * 2097152 + F * 1048576 + D * 4096 := by
  interval_cases b <;> simp only [JImm.encode, toU32] <;> omega

theorem jimm_rt (w : Nat) (hw : w < 4294967296) :
    JImm.encode (JImm.decode w) = w / 4096 * 4096 := by
  rw [jimm_decode_closed w hw,
    jimm_encode_fields (w / 4096 % 256) (w / 2147483648 % 2) (w / 2097152 % 1024)
      (w / 1048576 % 2) (by omega) (by omega) (by omega) (by omega)]
  omega

set_option maxHeartbeats 2000000 in
/-- C3: for every 32-bit word accepted by `decode`, re-encoding is
bit-exact — except for `SLLI` words whose funct6 field (bits 26–31) is
non-zero, which `decode` ignores and `encode` cannot reproduce; the
`hslli` guard excludes exactly those words (opcode `0010011`, funct3
`001`). -/
theorem decode_encode_roundtrip (w : Nat) (hw : w < 4294967296) (i : Instruction)
    (hdec : Instruction.decode w = .ok i)
    (hslli : Instruction.op_code w = 19 → Funct3.decode w = 1 → w / 67108864 = 0) :
    Instruction.encode i = w := by
  rw [Instruction.decode.eq_def] at hdec
  simp only [Instruction.op_code, Funct3.decode, Funct6.decode, Funct7.decode]
    at hdec hslli
  split at hdec
  all_goals try split at hdec
  all_goals try split at hdec
  all_goals
    first
    | exact Except.noConfusion hdec
    | (injection hdec with h
       subst h
       try have hs : w / 67108864 = 0 := hslli (by omega) (by omega)
       simp only [Instruction.encode, U.encode, I.encode, I.encode_csr, I.encode_csri,
         I.encode_shamt, R.encode, S.encode, J.encode, B.encode]
       simp only [rd_rt, rs1_rt, rs2_rt, shamt_rt, csrimm_rt, csr_rt w hw, immU_rt w hw,
         immI_rt w hw, simmI_rt w hw, bimm_rt w hw, jimm_rt w hw]
       omega)

/-- C3 counterexample: the word `0x80001013` (funct6 bits set on an SLLI)
decodes to `SLLI x0, x0, 0` but re-encodes to `0x00001013`. -/
theorem decode_encode_roundtrip_cex :
    Instruction.decode 2147487763 = .ok (.SLLI .ZERO .ZERO 0)
      ∧ Instruction.encode (.SLLI .ZERO .ZERO 0) ≠ 2147487763 := by
  constructor
  · rfl
  · decide

theorem decode_encode_roundtrip_witness : Instruction.encode (.ADDI .ZERO .ZERO 0) = 19 :=
  decode_encode_roundtrip 19 (by norm_num) (.ADDI .ZERO .ZERO 0) rfl (by decide)

end Riskv
